import Mathlib

/-!
Verification of `aos/devices.py` (apstra-api-python).

The Python module is a thin SDK over a REST transport.  We embed it
shallowly: decoded JSON bodies become the inductive `Json` (Python `None`
is `Json.null`), Python exceptions become the error side of
`Py α := Except PyErr α`, and the injected REST transport becomes a
function parameter supplying the response for each HTTP call.  Dictionary
subscription `d[k]` (which raises `KeyError`), `d.get(k, default)` (which
raises `AttributeError` on non-dicts), iteration, and truthiness are each
modelled by a small definition mirroring the Python semantics.
-/

namespace ApstraDevices

/-- Decoded JSON values as produced by the REST transport.  Python `None`
(absent body or JSON `null`) is `Json.null`. -/
inductive Json where
  | null
  | bool (b : Bool)
  | num (n : Int)
  | str (s : String)
  | arr (elems : List Json)
  | obj (fields : List (String × Json))

/-- Python exception kinds that the module can raise. -/
inductive PyErr where
  | keyError (k : String)
  | typeError (msg : String)
  | attributeError (msg : String)
  | aosAPIError (msg : String)
deriving DecidableEq

/-- Result of running a piece of Python code: a value or a raised exception. -/
abbrev Py (α : Type) := Except PyErr α

/-- Python `d[k]`: value for key `k` of a dict, `KeyError` when the key is
absent, `TypeError` when `d` is not subscriptable by a string. -/
def getItem (j : Json) (k : String) : Py Json :=
  match j with
  | .obj fields =>
    match fields.lookup k with
    | some v => .ok v
    | none => .error (.keyError k)
  | .null => .error (.typeError "NoneType object is not subscriptable")
  | _ => .error (.typeError "object is not subscriptable by str")

/-- Python `d.get(k, default)`: the value for `k` when `d` is a dict and the
key is present, the default otherwise; `AttributeError` when `d` is not a
dict (e.g. `None.get(...)`). -/
def dictGetD (j : Json) (k : String) (default : Json) : Py Json :=
  match j with
  | .obj fields => .ok ((fields.lookup k).getD default)
  | _ => .error (.attributeError "object has no attribute get")

/-- Python iteration `for x in j`: elements of a list, keys of a dict,
characters of a string; `TypeError` otherwise. -/
def iterElems : Json → Py (List Json)
  | .arr xs => .ok xs
  | .obj fs => .ok (fs.map (fun kv => Json.str kv.1))
  | .str s => .ok (s.toList.map (fun c => Json.str (String.singleton c)))
  | _ => .error (.typeError "object is not iterable")

/-- Python truthiness of a decoded JSON value (`if resp:`). -/
def Json.truthy : Json → Bool
  | .null => false
  | .bool b => b
  | .num n => n != 0
  | .str s => s != ""
  | .arr xs => !xs.isEmpty
  | .obj fs => !fs.isEmpty

/-- Python `x is None` for a decoded JSON value. -/
def Json.isNull : Json → Bool
  | .null => true
  | _ => false

/-- Python `==` between a decoded JSON value and a `str`: `True` exactly for
an equal string, `False` for every other type or string. -/
def jsonEqStr : Json → String → Bool
  | .str s, t => s == t
  | _, _ => false

/-- Python truthiness of an optional `str` argument (`if dp_name:`). -/
def pyStrTruthy : Option String → Bool
  | none => false
  | some s => s != ""

/-- How an optional `str` renders inside an f-string: `None` prints as the
literal `"None"`. -/
def fstrOptStr : Option String → String
  | none => "None"
  | some s => s

/-- A Python list comprehension over fallible element code: left-to-right,
the first raised exception aborts the whole comprehension. -/
def mapPy {α β : Type} (f : α → Py β) : List α → Py (List β)
  | [] => .ok []
  | x :: xs =>
    match f x with
    | .error e => .error e
    | .ok y =>
      match mapPy f xs with
      | .error e => .error e
      | .ok ys => .ok (y :: ys)

/-! ## Records (`namedtuple`s) of `devices.py` -/

/-- `SystemAgent = namedtuple(..., ["id", "fqdn", "operation_mode", "vendor"])` -/
structure SystemAgent where
  id : Json
  fqdn : Json
  operation_mode : Json
  vendor : Json

/-- `Anomaly = namedtuple(..., ["type", "id", "agent_id", "severity"])` -/
structure Anomaly where
  type : Json
  id : Json
  agent_id : Json
  severity : Json

/-- `DevicePackage = namedtuple("Package", ["name", "version"])` -/
structure DevicePackage where
  name : Json
  version : Json

/-- `DeviceOSImage = namedtuple("DeviceOsImage", [...])` with seven fields. -/
structure DeviceOSImage where
  description : Json
  checksum : Json
  image_name : Json
  platform : Json
  image_url : Json
  type : Json
  id : Json

/-! ## AosManagedDevices -/

/-- Body of the `SystemAgent(...)` constructor call in
`AosManagedDevices.get_all`, for one raw item `s`:
`SystemAgent(id=s["id"], fqdn=s.get("status", {}).get("fqdn"),
operation_mode=s.get("status", {}).get("operation_mode"),
vendor=s.get("facts", {}).get("vendor"))`. -/
def mapSystemAgent (s : Json) : Py SystemAgent :=
  match getItem s "id" with
  | .error e => .error e
  | .ok idv =>
    match dictGetD s "status" (.obj []) with
    | .error e => .error e
    | .ok status1 =>
      match dictGetD status1 "fqdn" .null with
      | .error e => .error e
      | .ok fqdn =>
        match dictGetD s "status" (.obj []) with
        | .error e => .error e
        | .ok status2 =>
          match dictGetD status2 "operation_mode" .null with
          | .error e => .error e
          | .ok opMode =>
            match dictGetD s "facts" (.obj []) with
            | .error e => .error e
            | .ok facts =>
              match dictGetD facts "vendor" .null with
              | .error e => .error e
              | .ok vendor => .ok ⟨idv, fqdn, opMode, vendor⟩

/-- `AosManagedDevices.get_all`, with the transport response to
`GET /api/systems` passed in as `resp`. -/
def managedDevices_get_all (resp : Json) : Py (List SystemAgent) :=
  if resp.isNull then .ok []
  else
    match getItem resp "items" with
    | .error e => .error e
    | .ok items =>
      match iterElems items with
      | .error e => .error e
      | .ok xs => mapPy mapSystemAgent xs

/-- The path string built inside `AosManagedDevices._iter_anomalies`:
`f"api/systems/{system_agent_id}/anomalies"`. -/
def anomalies_path (system_agent_id : String) : String :=
  "api/systems/" ++ system_agent_id ++ "/anomalies"

/-- Modelled from the spec: the external-interface table row
`| list anomalies | GET | /api/systems/{id}/anomalies |` (the REST client
that joins paths to the base URL is not part of this module). -/
def spec_anomalies_path (system_agent_id : String) : String :=
  "/api/systems/" ++ system_agent_id ++ "/anomalies"

/-- Body of the `Anomaly(...)` yield in `_iter_anomalies`, for one raw item:
`Anomaly(type=anomaly["anomaly_type"], id=anomaly["id"],
agent_id=anomaly.get("identity", {}).get("system_id"),
severity=anomaly["severity"])`. -/
def mapAnomaly (a : Json) : Py Anomaly :=
  match getItem a "anomaly_type" with
  | .error e => .error e
  | .ok t =>
    match getItem a "id" with
    | .error e => .error e
    | .ok i =>
      match dictGetD a "identity" (.obj []) with
      | .error e => .error e
      | .ok ident =>
        match dictGetD ident "system_id" .null with
        | .error e => .error e
        | .ok aid =>
          match getItem a "severity" with
          | .error e => .error e
          | .ok sev => .ok ⟨t, i, aid, sev⟩

/-- `AosManagedDevices.get_anomalies`: `list(self._iter_anomalies(...))`,
which materialises every anomaly of the generator (so a raised exception on
any item aborts the whole list). -/
def get_anomalies (resp : Json) : Py (List Anomaly) :=
  if resp.isNull then .ok []
  else
    match getItem resp "items" with
    | .error e => .error e
    | .ok items =>
      match iterElems items with
      | .error e => .error e
      | .ok xs => mapPy mapAnomaly xs

/-- `AosManagedDevices.has_anomalies`: `self.get_anomalies(...) != []`. -/
def has_anomalies (resp : Json) : Py Bool :=
  match get_anomalies resp with
  | .error e => .error e
  | .ok l => .ok (!l.isEmpty)

/-- The `for anomaly in self._iter_anomalies(...)` loop of
`has_anomalies_of_type`: the generator materialises one anomaly at a time,
so the scan returns `True` at the first match without touching later raw
items. -/
def scanForType (t : String) : List Json → Py Bool
  | [] => .ok false
  | a :: rest =>
    match mapAnomaly a with
    | .error e => .error e
    | .ok an => if jsonEqStr an.type t then .ok true else scanForType t rest

/-- `AosManagedDevices.has_anomalies_of_type`, with the transport response
passed in as `resp` and the `anomaly_type` argument as `t`. -/
def has_anomalies_of_type (resp : Json) (t : String) : Py Bool :=
  if resp.isNull then .ok false
  else
    match getItem resp "items" with
    | .error e => .error e
    | .ok items =>
      match iterElems items with
      | .error e => .error e
      | .ok xs => scanForType t xs

/-! ## AosSystemAgents -/

/-- Body of the `DevicePackage(...)` constructor in `get_packages`:
`DevicePackage(name=package["name"], version=package["version"])`. -/
def mapPackage (p : Json) : Py DevicePackage :=
  match getItem p "name" with
  | .error e => .error e
  | .ok n =>
    match getItem p "version" with
    | .error e => .error e
    | .ok v => .ok ⟨n, v⟩

/-- `AosSystemAgents.get_packages` with the transport response to
`GET /api/packages` passed in as `resp`.  Note: no `None` check — the code
subscripts `resp["items"]` directly. -/
def get_packages (resp : Json) : Py (List DevicePackage) :=
  match getItem resp "items" with
  | .error e => .error e
  | .ok items =>
    match iterElems items with
    | .error e => .error e
    | .ok xs => mapPy mapPackage xs

/-- The seven keys subscripted by the `DeviceOSImage(...)` constructor in
`get_os_images`, in evaluation order. -/
def osImageKeys : List String :=
  ["description", "checksum", "image_name", "platform", "image_url", "type", "id"]

/-- Body of the `DeviceOSImage(...)` constructor in `get_os_images`: every
one of the seven fields is taken by `image[key]` subscription, so a missing
key raises `KeyError`. -/
def mapOSImage (image : Json) : Py DeviceOSImage :=
  match getItem image "description" with
  | .error e => .error e
  | .ok d =>
    match getItem image "checksum" with
    | .error e => .error e
    | .ok c =>
      match getItem image "image_name" with
      | .error e => .error e
      | .ok n =>
        match getItem image "platform" with
        | .error e => .error e
        | .ok p =>
          match getItem image "image_url" with
          | .error e => .error e
          | .ok u =>
            match getItem image "type" with
            | .error e => .error e
            | .ok t =>
              match getItem image "id" with
              | .error e => .error e
              | .ok i => .ok ⟨d, c, n, p, u, t, i⟩

/-- `AosSystemAgents.get_os_images` with the transport response to
`GET /api/device-os/images` passed in as `resp`.  No `None` check. -/
def get_os_images (resp : Json) : Py (List DeviceOSImage) :=
  match getItem resp "items" with
  | .error e => .error e
  | .ok items =>
    match iterElems items with
    | .error e => .error e
    | .ok xs => mapPy mapOSImage xs

/-! ## AosDeviceProfiles -/

/-- The `for dp in dev_profs: if dp.get("display_name") == dp_name: return dp`
scan in `get_device_profile`: first match wins; `dp.get` on a non-dict
element raises `AttributeError`. -/
def scanProfiles (name : String) : List Json → Py (Option Json)
  | [] => .ok none
  | dp :: rest =>
    match dictGetD dp "display_name" Json.null with
    | .error e => .error e
    | .ok v => if jsonEqStr v name then .ok (some dp) else scanProfiles name rest

/-- `AosDeviceProfiles.get_device_profile`.  `all_resp` is the transport
response that `self.get_all()` (a bare `GET /api/device-profiles`) returns;
`byId` is the transport call `json_resp_get` performed on the single-resource
path in the final `return` statement. -/
def get_device_profile (byId : String → Py Json) (all_resp : Json)
    (dp_id dp_name : Option String) : Py Json :=
  if pyStrTruthy dp_name then
    if all_resp.truthy then
      match iterElems all_resp with
      | .error e => .error e
      | .ok xs =>
        match scanProfiles (dp_name.getD "") xs with
        | .error e => .error e
        | .ok (some dp) => .ok dp
        | .ok none =>
          .error (.aosAPIError
            ("External Router " ++ dp_name.getD "" ++ " not found"))
    else byId ("/api/device-profiles/" ++ fstrOptStr dp_id)
  else byId ("/api/device-profiles/" ++ fstrOptStr dp_id)

/-- The body of the `while i < len(dp_list)` loop in `add_device_profiles`,
iterated over the submission indices.  `post i` is the transport response to
the `POST` of `dp_list[i]`.  The first component collects
`resp["id"]` for every truthy response (`if resp:`); the second records each
`time.sleep(3)` call as the pair (1-indexed submission count, duration). -/
def addGo (post : Nat → Py Json) : List Nat → Py (List Json × List (Nat × Nat))
  | [] => .ok ([], [])
  | i :: rest =>
    match post i with
    | .error e => .error e
    | .ok resp =>
      match
        (if resp.truthy then
          match getItem resp "id" with
          | .error e => .error e
          | .ok v => .ok [v]
        else (.ok [] : Py (List Json))) with
      | .error e => .error e
      | .ok ids1 =>
        match addGo post rest with
        | .error e => .error e
        | .ok (ids2, sleeps2) =>
          .ok (ids1 ++ ids2,
            (if (i + 1) % 30 == 0 then [(i + 1, 3)] else []) ++ sleeps2)

/-- `AosDeviceProfiles.add_device_profiles` on an input list of length `n`:
the loop runs `i = 0, 1, ..., n-1` in order. -/
def add_device_profiles (post : Nat → Py Json) (n : Nat) :
    Py (List Json × List (Nat × Nat)) :=
  addGo post (List.range n)

/-- `AosDeviceProfiles.delete_device_profiles`: one DELETE per id in input
order (result body ignored), the id appended after each call; a raised
transport exception aborts the loop. -/
def delete_device_profiles (del : String → Py Json) : List String → Py (List String)
  | [] => .ok []
  | dp_id :: rest =>
    match del ("/api/device-profiles/" ++ dp_id) with
    | .error e => .error e
    | .ok _ =>
      match delete_device_profiles del rest with
      | .error e => .error e
      | .ok ids => .ok (dp_id :: ids)

/-! ## Concrete fixtures used by witnesses and counterexamples -/

/-- An id-based GET transport that records the path it was asked for. -/
def probeById : String → Py Json := fun p => .ok (.str p)

/-- A well-formed raw anomaly item of type `"cabling"`. -/
def goodAnom : Json :=
  .obj [("anomaly_type", .str "cabling"), ("id", .str "a1"),
        ("severity", .str "high")]

/-- An anomalies response whose first item is well-formed and matching, and
whose second item `{}` is missing every required key. -/
def badAnomResp : Json := .obj [("items", .arr [goodAnom, .obj []])]

/-- A well-formed anomalies response with a single `"cabling"` anomaly. -/
def goodAnomResp : Json := .obj [("items", .arr [goodAnom])]

/-- The raw system item `{"id": "s1", "status": {"fqdn": "sw1"}, "facts": {}}`
from the spec example. -/
def exAgentItem : Json :=
  .obj [("id", .str "s1"), ("status", .obj [("fqdn", .str "sw1")]),
        ("facts", .obj [])]

/-- A packages response with one fully-populated package item. -/
def exPkgResp : Json :=
  .obj [("items", .arr [.obj [("name", .str "nxos"), ("version", .str "9.3")]])]

/-- An OS-images response with one fully-populated image item. -/
def exImageResp : Json :=
  .obj [("items", .arr [.obj
    [("description", .str "d"), ("checksum", .str "c"),
     ("image_name", .str "n"), ("platform", .str "p"),
     ("image_url", .str "u"), ("type", .str "t"), ("id", .str "i")]])]

/-- An OS-images response whose only item is missing the `"checksum"` key
(and the five keys after it). -/
def missingImageResp : Json :=
  .obj [("items", .arr [.obj [("description", .str "d")]])]

/-- A POST transport for the 31-payload throttling scenario: the `i`-th POST
returns `{"id": i}`. -/
def postSeq : Nat → Py Json := fun i => .ok (.obj [("id", .num (Int.ofNat i))])

/-- A POST transport whose second response is `None` (null body) and whose
other responses carry ids `"a"` and `"c"`. -/
def postSkip : Nat → Py Json := fun i =>
  if i == 0 then .ok (.obj [("id", .str "a")])
  else if i == 1 then .ok .null
  else .ok (.obj [("id", .str "c")])

/-- A DELETE transport that raises on the second id `"b"` and returns an
empty body for every other path. -/
def delFailB : String → Py Json := fun p =>
  if p == "/api/device-profiles/b" then .error (.aosAPIError "HTTP 500")
  else .ok .null

/-! ## Helper lemmas -/

/-- The element of the scan predicates: `dp.get("display_name")` evaluates
to `v` and `v == dp_name` is `True`. -/
def profileMatch (name : String) (dp : Json) : Prop :=
  ∃ v, dictGetD dp "display_name" Json.null = .ok v ∧ jsonEqStr v name = true

/-- `dp.get("display_name")` evaluates to `v` and `v == dp_name` is `False`. -/
def profileNonMatch (name : String) (dp : Json) : Prop :=
  ∃ v, dictGetD dp "display_name" Json.null = .ok v ∧ jsonEqStr v name = false

/-- Spec-side description of the ids collected by `add_device_profiles`: one
id per truthy POST response, in submission order; falsy (e.g. null) responses
contribute nothing. -/
def createdIds (post : Nat → Py Json) (n : Nat) : List Json :=
  (List.range n).filterMap (fun i =>
    match post i with
    | .ok resp =>
      if resp.truthy then
        match getItem resp "id" with
        | .ok v => some v
        | .error _ => none
      else none
    | .error _ => none)

/-- Spec-side description of the throttling pauses of `add_device_profiles`
on `n` submissions: one 3-time-unit sleep after every 30th submission
(1-indexed). -/
def sleepSchedule (n : Nat) : List (Nat × Nat) :=
  (List.range n).filterMap
    (fun i => if (i + 1) % 30 == 0 then some (i + 1, 3) else none)

theorem getItem_obj_ok {fs : List (String × Json)} {k : String} {v : Json}
    (h : getItem (.obj fs) k = .ok v) : fs.lookup k = some v := by
  cases hl : fs.lookup k with
  | none => simp [getItem, hl] at h
  | some w => simp [getItem, hl] at h; rw [h]

theorem mapPy_ok_mem {α β : Type} (f : α → Py β) :
    ∀ (xs : List α) (l : List β), mapPy f xs = .ok l →
      ∀ x ∈ xs, ∃ y, f x = .ok y := by
  intro xs
  induction xs with
  | nil => intro l _ x hx; cases hx
  | cons a rest ih =>
    intro l h x hx
    unfold mapPy at h
    cases hf : f a with
    | error e => rw [hf] at h; cases h
    | ok y =>
      rw [hf] at h
      cases hr : mapPy f rest with
      | error e => rw [hr] at h; cases h
      | ok ys =>
        cases hx with
        | head => exact ⟨y, hf⟩
        | tail _ hx => exact ih ys hr x hx

theorem scanForType_of_mapPy (t : String) :
    ∀ (xs : List Json) (l : List Anomaly), mapPy mapAnomaly xs = .ok l →
      scanForType t xs = .ok (l.any (fun a => jsonEqStr a.type t)) := by
  intro xs
  induction xs with
  | nil =>
    intro l h
    unfold mapPy at h; injection h with h; rw [← h]; rfl
  | cons a rest ih =>
    intro l h
    unfold mapPy at h
    cases hf : mapAnomaly a with
    | error e => rw [hf] at h; cases h
    | ok an =>
      rw [hf] at h
      cases hr : mapPy mapAnomaly rest with
      | error e => rw [hr] at h; cases h
      | ok l2 =>
        rw [hr] at h
        injection h with h
        rw [← h]
        by_cases hm : jsonEqStr an.type t = true
        · simp [scanForType, hf, hm]
        · simp only [Bool.not_eq_true] at hm
          simp [scanForType, hf, hm, ih l2 hr]

theorem scanProfiles_none (name : String) :
    ∀ (xs : List Json), (∀ dp ∈ xs, profileNonMatch name dp) →
      scanProfiles name xs = .ok none := by
  intro xs
  induction xs with
  | nil => intro _; rfl
  | cons dp rest ih =>
    intro h
    rcases h dp (List.mem_cons_self dp rest) with ⟨v, hv, hne⟩
    have hrest := ih (fun q hq => h q (List.mem_cons_of_mem dp hq))
    simp [scanProfiles, hv, hne, hrest]

theorem scanProfiles_find (name : String) (dp : Json) (rest : List Json)
    (hdp : profileMatch name dp) :
    ∀ (pre : List Json), (∀ q ∈ pre, profileNonMatch name q) →
      scanProfiles name (pre ++ dp :: rest) = .ok (some dp) := by
  intro pre
  induction pre with
  | nil =>
    intro _
    rcases hdp with ⟨v, hv, heq⟩
    rw [List.nil_append]
    simp [scanProfiles, hv, heq]
  | cons q pre2 ih =>
    intro h
    rcases h q (List.mem_cons_self q pre2) with ⟨v, hv, hne⟩
    have hrest := ih (fun r hr => h r (List.mem_cons_of_mem q hr))
    rw [List.cons_append]
    simp [scanProfiles, hv, hne, hrest]

theorem addGo_sleeps (post : Nat → Py Json) :
    ∀ (l : List Nat) (ids : List Json) (sleeps : List (Nat × Nat)),
      addGo post l = .ok (ids, sleeps) →
      sleeps = l.filterMap
        (fun i => if (i + 1) % 30 == 0 then some (i + 1, 3) else none) := by
  intro l
  induction l with
  | nil =>
    intro ids sleeps h
    simp [addGo] at h
    rw [h.2]
    rfl
  | cons i rest ih =>
    intro ids sleeps h
    unfold addGo at h
    split at h
    · cases h
    · split at h
      · cases h
      · split at h
        · cases h
        next ids2 sleeps2 hrec =>
          injection h with h
          have hsnd := congrArg Prod.snd h
          simp only at hsnd
          rw [← hsnd, ih ids2 sleeps2 hrec, List.filterMap_cons]
          by_cases h30 : ((i + 1) % 30 == 0) = true
          · simp [h30]
          · simp only [Bool.not_eq_true] at h30
            simp [h30]

theorem addGo_characterize (post : Nat → Py Json) :
    ∀ (l : List Nat),
      (∀ i ∈ l, ∃ resp, post i = .ok resp ∧
        (resp.truthy = true → ∃ v, getItem resp "id" = .ok v)) →
      addGo post l = .ok
        (l.filterMap (fun i =>
          match post i with
          | .ok resp =>
            if resp.truthy then
              match getItem resp "id" with
              | .ok v => some v
              | .error _ => none
            else none
          | .error _ => none),
         l.filterMap
           (fun i => if (i + 1) % 30 == 0 then some (i + 1, 3) else none)) := by
  intro l
  induction l with
  | nil => intro _; rfl
  | cons i rest ih =>
    intro h
    rcases h i (List.mem_cons_self i rest) with ⟨resp, hpost, hid⟩
    have hrest := ih (fun j hj => h j (List.mem_cons_of_mem i hj))
    cases htr : resp.truthy with
    | false =>
      by_cases h30 : (i + 1) % 30 = 0 <;>
        simp [addGo, hpost, htr, hrest, List.filterMap_cons, h30]
    | true =>
      rcases hid htr with ⟨v, hv⟩
      by_cases h30 : (i + 1) % 30 = 0 <;>
        simp [addGo, hpost, htr, hv, hrest, List.filterMap_cons, h30]

theorem addGo_skipped_length (post : Nat → Py Json) :
    ∀ (l : List Nat),
      (∀ i ∈ l, ∃ resp, post i = .ok resp ∧
        (resp.truthy = true → ∃ v, getItem resp "id" = .ok v)) →
      ((l.filterMap (fun i =>
          match post i with
          | .ok resp =>
            if resp.truthy then
              match getItem resp "id" with
              | .ok v => some v
              | .error _ => none
            else none
          | .error _ => none)).length < l.length ↔
        ∃ i ∈ l, ∃ resp, post i = .ok resp ∧ resp.truthy = false) := by
  intro l
  induction l with
  | nil => simp
  | cons i rest ih =>
    intro h
    rcases h i (List.mem_cons_self i rest) with ⟨resp, hpost, hid⟩
    have hrest := ih (fun j hj => h j (List.mem_cons_of_mem i hj))
    cases htr : resp.truthy with
    | false =>
      rw [List.filterMap_cons]
      simp only [hpost, htr, if_false, Bool.false_eq_true]
      constructor
      · intro _
        exact ⟨i, List.mem_cons_self i rest, resp, hpost, htr⟩
      · intro _
        calc (rest.filterMap _).length ≤ rest.length := List.length_filterMap_le _ _
          _ < (i :: rest).length := by simp [List.length_cons]
    | true =>
      rcases hid htr with ⟨v, hv⟩
      rw [List.filterMap_cons]
      simp only [hpost, htr, if_true, hv, List.length_cons, List.length_cons]
      rw [Nat.succ_lt_succ_iff]
      rw [hrest]
      constructor
      · intro ⟨j, hj, hex⟩
        exact ⟨j, List.mem_cons_of_mem i hj, hex⟩
      · intro ⟨j, hj, resp2, hp2, ht2⟩
        cases hj with
        | head =>
          rw [hpost] at hp2
          injection hp2 with hp2
          rw [hp2] at htr
          rw [htr] at ht2
          cases ht2
        | tail _ hj => exact ⟨j, hj, resp2, hp2, ht2⟩

theorem mapOSImage_keys {fs : List (String × Json)} {dp : DeviceOSImage}
    (h : mapOSImage (.obj fs) = .ok dp) :
    ∀ k ∈ osImageKeys, (fs.lookup k).isSome = true := by
  unfold mapOSImage at h
  split at h
  · cases h
  next d hd =>
    split at h
    · cases h
    next c hc =>
      split at h
      · cases h
      next n hn =>
        split at h
        · cases h
        next p hp =>
          split at h
          · cases h
          next u hu =>
            split at h
            · cases h
            next t ht =>
              split at h
              · cases h
              next i hi =>
                intro k hk
                simp only [osImageKeys, List.mem_cons, List.mem_singleton] at hk
                rcases hk with rfl | rfl | rfl | rfl | rfl | rfl | rfl | hk
                · rw [getItem_obj_ok hd]; rfl
                · rw [getItem_obj_ok hc]; rfl
                · rw [getItem_obj_ok hn]; rfl
                · rw [getItem_obj_ok hp]; rfl
                · rw [getItem_obj_ok hu]; rfl
                · rw [getItem_obj_ok ht]; rfl
                · rw [getItem_obj_ok hi]; rfl
                · exact absurd hk (List.not_mem_nil k)

/-- C2: with 31 payloads whose POSTs each return a truthy `{"id": i}`
response, `add_device_profiles` sleeps exactly once — a 3-time-unit pause
after the 30th submission — and returns all 31 ids in submission order; in
general, whatever the POST responses, the pauses of a successful run are
exactly one 3-time-unit sleep after every 30th submission (1-indexed). -/
theorem c2_throttle :
    add_device_profiles postSeq 31 =
      .ok ((List.range 31).map (fun i => Json.num (Int.ofNat i)), [(30, 3)]) ∧
    ∀ (post : Nat → Py Json) (n : Nat) (ids : List Json)
      (sleeps : List (Nat × Nat)),
      add_device_profiles post n = .ok (ids, sleeps) →
      sleeps = sleepSchedule n := by
  constructor
  · rfl
  · intro post n ids sleeps h
    exact addGo_sleeps post (List.range n) ids sleeps h

/-- C2 witness: the general throttling schedule, instantiated at the
31-payload run, confirms the single pause `(30, 3)`. -/
theorem c2_witness : ([(30, 3)] : List (Nat × Nat)) = sleepSchedule 31 :=
  c2_throttle.2 postSeq 31
    ((List.range 31).map (fun i => Json.num (Int.ofNat i))) [(30, 3)]
    c2_throttle.1

/-- C5: when every POST response that is truthy carries an `"id"`, the batch
create succeeds, its ids are exactly one id per truthy response in
submission order (a null response is silently skipped and later payloads
are still submitted), and the result is shorter than the input exactly when
some response was falsy. -/
theorem c5_skip_nulls (post : Nat → Py Json) (n : Nat)
    (h : ∀ i, i < n → ∃ resp, post i = .ok resp ∧
        (resp.truthy = true → ∃ v, getItem resp "id" = .ok v)) :
    add_device_profiles post n = .ok (createdIds post n, sleepSchedule n) ∧
    ((createdIds post n).length < n ↔
      ∃ i, i < n ∧ ∃ resp, post i = .ok resp ∧ resp.truthy = false) := by
  have h2 : ∀ i ∈ List.range n, ∃ resp, post i = .ok resp ∧
      (resp.truthy = true → ∃ v, getItem resp "id" = .ok v) :=
    fun i hi => h i (List.mem_range.mp hi)
  constructor
  · exact addGo_characterize post (List.range n) h2
  · have hlen := addGo_skipped_length post (List.range n) h2
    rw [List.length_range] at hlen
    constructor
    · intro hlt
      rcases hlen.mp hlt with ⟨i, hi, hex⟩
      exact ⟨i, List.mem_range.mp hi, hex⟩
    · intro ⟨i, hi, hex⟩
      exact hlen.mpr ⟨i, List.mem_range.mpr hi, hex⟩

/-- C5 witness: three payloads where the second POST returns a null body —
ids `"a"` and `"c"` are returned in order and the result is shorter than
the input. -/
theorem c5_witness :
    add_device_profiles postSkip 3 = .ok ([.str "a", .str "c"], []) ∧
    ((createdIds postSkip 3).length < 3 ↔
      ∃ i, i < 3 ∧ ∃ resp, postSkip i = .ok resp ∧ resp.truthy = false) :=
  c5_skip_nulls postSkip 3 (by
    intro i hi
    interval_cases i
    · exact ⟨.obj [("id", .str "a")], rfl, fun _ => ⟨.str "a", rfl⟩⟩
    · exact ⟨.null, rfl, fun ht => absurd ht (by decide)⟩
    · exact ⟨.obj [("id", .str "c")], rfl, fun _ => ⟨.str "c", rfl⟩⟩)

/-- C6 counterexample: with a transport that raises on the DELETE of `"b"`,
`delete_device_profiles ["a", "b", "c"]` propagates the exception instead
of returning `["a", "b", "c"]` — the claim's "regardless of whether ... the
transport raised" fails. -/
theorem c6_counterexample :
    delete_device_profiles delFailB ["a", "b", "c"] =
      .error (.aosAPIError "HTTP 500") ∧
    delete_device_profiles delFailB ["a", "b", "c"] ≠
      .ok ["a", "b", "c"] := by
  refine ⟨rfl, fun h => ?_⟩
  cases h

/-- C6 (amended): for every input list and every transport whose DELETE
calls all return (whatever body they return — it is never inspected),
`delete_device_profiles` returns exactly the input ids in input order; a
raised transport exception instead propagates to the caller. -/
theorem c6_amended (del : String → Py Json) (l : List String)
    (h : ∀ p, ∃ v, del p = .ok v) :
    delete_device_profiles del l = .ok l := by
  induction l with
  | nil => rfl
  | cons a rest ih =>
    rcases h ("/api/device-profiles/" ++ a) with ⟨v, hv⟩
    simp [delete_device_profiles, hv, ih]

/-- C6 witness: a transport returning an empty body for every DELETE gives
back exactly `["a", "b", "c"]`. -/
theorem c6_witness :
    delete_device_profiles (fun _ => .ok .null) ["a", "b", "c"] =
      .ok ["a", "b", "c"] :=
  c6_amended (fun _ => .ok .null) ["a", "b", "c"] (fun _ => ⟨.null, rfl⟩)

/-- C7: the anomaly-listing GET path built by `_iter_anomalies` for agent
`"s1"` is `"api/systems/s1/anomalies"` — it is missing the leading slash
that the external-interface table (`/api/systems/{id}/anomalies`) and every
other path in the module carry. -/
theorem c7_missing_slash :
    anomalies_path "s1" = "api/systems/s1/anomalies" ∧
    spec_anomalies_path "s1" = "/api/systems/s1/anomalies" ∧
    anomalies_path "s1" ≠ spec_anomalies_path "s1" := by
  refine ⟨rfl, rfl, ?_⟩
  decide

/-- C1 counterexample: with a name given and an empty profile collection —
a collection in which no object's `display_name` equals the name —
`get_device_profile` does not raise the NotFound error: it falls through to
the id-based GET (here probed, with `dp_id` absent, as
`/api/device-profiles/None`). -/
theorem c1_counterexample :
    get_device_profile probeById (.arr []) none (some "X") =
      .ok (.str "/api/device-profiles/None") ∧
    get_device_profile probeById (.arr []) none (some "X") ≠
      .error (.aosAPIError "External Router X not found") := by
  refine ⟨rfl, fun h => ?_⟩
  cases h

/-- C1 (amended): with a non-empty name and a list-shaped profile
collection, the scan returns the first object whose `display_name` equals
the name; and for every NON-EMPTY collection in which no object matches, it
raises the NotFound-style `AosAPIError` naming the requested name (empty or
null collections instead fall back to the id-based GET). -/
theorem c1_amended (byId : String → Py Json) (dp_id : Option String)
    (name : String) (hn : name ≠ "") (xs : List Json) :
    ((∀ dp ∈ xs, profileNonMatch name dp) → xs ≠ [] →
      get_device_profile byId (.arr xs) dp_id (some name) =
        .error (.aosAPIError ("External Router " ++ name ++ " not found"))) ∧
    (∀ (pre : List Json) (dp : Json) (rest : List Json),
      xs = pre ++ dp :: rest →
      (∀ q ∈ pre, profileNonMatch name q) → profileMatch name dp →
      get_device_profile byId (.arr xs) dp_id (some name) = .ok dp) := by
  have ht : pyStrTruthy (some name) = true := by
    simp [pyStrTruthy]
    exact hn
  constructor
  · intro hall hne
    have hscan := scanProfiles_none name xs hall
    cases xs with
    | nil => exact absurd rfl hne
    | cons a as =>
      simp [get_device_profile, ht, Json.truthy, iterElems, hscan]
  · intro pre dp rest hxs hpre hdp
    have hne : xs ≠ [] := by
      rw [hxs]
      simp
    have hscan : scanProfiles name xs = .ok (some dp) := by
      rw [hxs]
      exact scanProfiles_find name dp rest hdp pre hpre
    cases hx : xs with
    | nil => exact absurd hx hne
    | cons a as =>
      rw [hx] at hscan
      simp [get_device_profile, ht, Json.truthy, iterElems, hscan]

/-- C1 witness: a singleton collection with `display_name = "Y"` raises the
NotFound error for name `"X"`; a singleton collection with
`display_name = "X"` is returned by the scan. -/
theorem c1_witness :
    get_device_profile probeById (.arr [.obj [("display_name", .str "Y")]])
      none (some "X") =
      .error (.aosAPIError "External Router X not found") ∧
    get_device_profile probeById (.arr [.obj [("display_name", .str "X")]])
      none (some "X") = .ok (.obj [("display_name", .str "X")]) := by
  constructor
  · exact (c1_amended probeById none "X" (by decide)
      [.obj [("display_name", .str "Y")]]).1
      (by
        intro dp hdp
        rw [List.mem_singleton] at hdp
        rw [hdp]
        exact ⟨.str "Y", rfl, rfl⟩)
      (by simp)
  · exact (c1_amended probeById none "X" (by decide)
      [.obj [("display_name", .str "X")]]).2
      [] (.obj [("display_name", .str "X")]) [] rfl
      (fun q hq => absurd hq (List.not_mem_nil q))
      ⟨.str "X", rfl, rfl⟩

/-- C10: when a non-empty name is given but the profile collection is falsy
(null body or empty collection), `get_device_profile` raises nothing and
falls through to the single-resource GET on
`/api/device-profiles/{dp_id}`, where an absent `dp_id` renders as the
literal `"None"`. -/
theorem c10_fallthrough (byId : String → Py Json) (all_resp : Json)
    (hfalsy : all_resp.truthy = false) (dp_id : Option String)
    (name : String) (hn : name ≠ "") :
    get_device_profile byId all_resp dp_id (some name) =
      byId ("/api/device-profiles/" ++ fstrOptStr dp_id) ∧
    fstrOptStr none = "None" := by
  have ht : pyStrTruthy (some name) = true := by
    simp [pyStrTruthy]
    exact hn
  refine ⟨?_, rfl⟩
  simp [get_device_profile, ht, hfalsy]

/-- C10 witness: name `"X"` with a null collection and no id GETs
`/api/device-profiles/None`. -/
theorem c10_witness :
    get_device_profile probeById .null none (some "X") =
      probeById ("/api/device-profiles/" ++ fstrOptStr none) ∧
    fstrOptStr none = "None" :=
  c10_fallthrough probeById .null rfl none "X" (by decide)

/-- C3 counterexample: for a transport response whose first anomaly item
matches the requested type and whose second item is malformed, the
short-circuiting `has_anomalies_of_type` returns `True`, while
`get_anomalies` raises `KeyError` — so computing the full list and checking
the predicate is NOT observably equivalent to the scan. -/
theorem c3_counterexample :
    has_anomalies_of_type badAnomResp "cabling" = .ok true ∧
    get_anomalies badAnomResp = .error (.keyError "anomaly_type") ∧
    has_anomalies_of_type badAnomResp "cabling" ≠
      (match get_anomalies badAnomResp with
       | .error e => .error e
       | .ok l => .ok (l.any (fun a => jsonEqStr a.type "cabling"))) := by
  refine ⟨rfl, rfl, fun hcon => ?_⟩
  have h2 : (Except.ok true : Py Bool) =
      .error (.keyError "anomaly_type") := hcon
  cases h2

/-- C3 (amended): whenever `get_anomalies` succeeds with list `l`,
`has_anomalies` is `True` iff `l` is non-empty and `has_anomalies_of_type t`
is `True` iff some anomaly of `l` has type equal to `t` (the short-circuit
scan agrees with the full-list predicate, in the same order); when
materialising the list raises, the scan may still succeed, so the
equivalence is restricted to successful listings. -/
theorem c3_amended (resp : Json) (t : String) (l : List Anomaly)
    (h : get_anomalies resp = .ok l) :
    has_anomalies resp = .ok (!l.isEmpty) ∧
    has_anomalies_of_type resp t = .ok (l.any (fun a => jsonEqStr a.type t)) := by
  constructor
  · simp [has_anomalies, h]
  · by_cases hn : resp.isNull = true
    · simp [get_anomalies, hn] at h
      subst h
      simp [has_anomalies_of_type, hn]
    · simp only [Bool.not_eq_true] at hn
      simp only [get_anomalies, hn, Bool.false_eq_true, if_false] at h
      cases hitems : getItem resp "items" with
      | error e => rw [hitems] at h; cases h
      | ok items =>
        rw [hitems] at h
        replace h : (match iterElems items with
          | .error e => (.error e : Py (List Anomaly))
          | .ok xs => mapPy mapAnomaly xs) = .ok l := h
        cases hiter : iterElems items with
        | error e => rw [hiter] at h; cases h
        | ok xs =>
          rw [hiter] at h
          replace h : mapPy mapAnomaly xs = .ok l := h
          have hscan := scanForType_of_mapPy t xs l h
          simp [has_anomalies_of_type, hn, hitems, hiter, hscan]

/-- C3 witness: a single well-formed `"cabling"` anomaly — the listing
succeeds, `has_anomalies` is `True`, and the scan agrees with the full-list
predicate. -/
theorem c3_witness :
    has_anomalies goodAnomResp = .ok true ∧
    has_anomalies_of_type goodAnomResp "cabling" = .ok true :=
  c3_amended goodAnomResp "cabling"
    [⟨.str "cabling", .str "a1", .null, .str "high"⟩] rfl

/-- C4: `ManagedDevices.get_all` returns an empty list (no error) on a null
body; the spec's example item maps to
`SystemAgent(id="s1", fqdn="sw1", operation_mode=None, vendor=None)`; an
item whose `status` and `facts` keys are absent maps with null fields
rather than failing; and any non-null body whose items all map yields the
mapped list. -/
theorem c4_null_tolerant :
    managedDevices_get_all Json.null = .ok [] ∧
    managedDevices_get_all (.obj [("items", .arr [exAgentItem])]) =
      .ok [⟨.str "s1", .str "sw1", .null, .null⟩] ∧
    (∀ (fs : List (String × Json)) (idv : Json),
      fs.lookup "id" = some idv → fs.lookup "status" = none →
      fs.lookup "facts" = none →
      mapSystemAgent (.obj fs) = .ok ⟨idv, .null, .null, .null⟩) ∧
    (∀ (resp : Json) (xs : List Json) (l : List SystemAgent),
      resp.isNull = false → getItem resp "items" = .ok (.arr xs) →
      mapPy mapSystemAgent xs = .ok l →
      managedDevices_get_all resp = .ok l) := by
  refine ⟨rfl, rfl, ?_, ?_⟩
  · intro fs idv hid hstatus hfacts
    simp [mapSystemAgent, getItem, dictGetD, hid, hstatus, hfacts]
  · intro resp xs l hnull hitems hmap
    simp [managedDevices_get_all, hnull, hitems, iterElems, hmap]

/-- C4 witness: the raw item `{"id": "x"}` (no `status`, no `facts`) maps to
`SystemAgent(id="x", fqdn=None, operation_mode=None, vendor=None)`, and a
one-item body maps through `get_all`. -/
theorem c4_witness :
    mapSystemAgent (.obj [("id", .str "x")]) =
      .ok ⟨.str "x", .null, .null, .null⟩ ∧
    managedDevices_get_all (.obj [("items", .arr [.obj [("id", .str "x")]])]) =
      .ok [⟨.str "x", .null, .null, .null⟩] :=
  ⟨c4_null_tolerant.2.2.1 [("id", .str "x")] (.str "x") rfl rfl rfl,
   c4_null_tolerant.2.2.2 (.obj [("items", .arr [.obj [("id", .str "x")]])])
     [.obj [("id", .str "x")]] [⟨.str "x", .null, .null, .null⟩]
     rfl rfl rfl⟩

/-- C8: `get_packages` performs no defensive null check — a null body makes
`resp["items"]` raise `TypeError`, surfacing as an error to the caller,
unlike the null-tolerant `ManagedDevices.get_all`, which returns `[]` on
the same null body; a non-null body maps each item to a `DevicePackage`
whose `name` and `version` come from the item's own keys. -/
theorem c8_no_null_check :
    get_packages Json.null =
      .error (.typeError "NoneType object is not subscriptable") ∧
    managedDevices_get_all Json.null = .ok [] ∧
    get_packages exPkgResp = .ok [⟨.str "nxos", .str "9.3"⟩] ∧
    (∀ (p : Json) (dp : DevicePackage), mapPackage p = .ok dp →
      getItem p "name" = .ok dp.name ∧ getItem p "version" = .ok dp.version) := by
  refine ⟨rfl, rfl, rfl, ?_⟩
  intro p dp h
  unfold mapPackage at h
  split at h
  · cases h
  next n hn =>
    split at h
    · cases h
    next v hv =>
      injection h with h
      rw [← h]
      exact ⟨hn, hv⟩

/-- C8 witness: field provenance for a concrete package item. -/
theorem c8_witness :
    getItem (.obj [("name", .str "a"), ("version", .str "b")]) "name" =
      .ok (DevicePackage.mk (.str "a") (.str "b")).name ∧
    getItem (.obj [("name", .str "a"), ("version", .str "b")]) "version" =
      .ok (DevicePackage.mk (.str "a") (.str "b")).version :=
  c8_no_null_check.2.2.2 (.obj [("name", .str "a"), ("version", .str "b")])
    (DevicePackage.mk (.str "a") (.str "b")) rfl

/-- C9: `get_os_images` requires all seven fields of each raw item — if any
item of the `items` array is an object missing one of the seven keys, the
whole call raises an error instead of tolerating the absence; a
fully-populated item maps to the corresponding `DeviceOSImage`. -/
theorem c9_required_keys :
    (∀ (resp : Json) (xs : List Json) (p : Json)
      (fs : List (String × Json)) (k : String),
      getItem resp "items" = .ok (.arr xs) → p ∈ xs → p = .obj fs →
      k ∈ osImageKeys → fs.lookup k = none →
      ∃ e, get_os_images resp = .error e) ∧
    get_os_images exImageResp =
      .ok [⟨.str "d", .str "c", .str "n", .str "p", .str "u",
           .str "t", .str "i"⟩] := by
  refine ⟨?_, rfl⟩
  intro resp xs p fs k hitems hmem hp hk hnone
  cases hres : get_os_images resp with
  | error e => exact ⟨e, rfl⟩
  | ok l =>
    exfalso
    have hmap : mapPy mapOSImage xs = .ok l := by
      simp only [get_os_images, hitems, iterElems] at hres
      exact hres
    rcases mapPy_ok_mem mapOSImage xs l hmap p hmem with ⟨dp, hdp⟩
    rw [hp] at hdp
    have hsome := mapOSImage_keys hdp k hk
    rw [hnone] at hsome
    cases hsome

/-- C9 witness: an items array whose only object is missing `"checksum"`
makes `get_os_images` raise. -/
theorem c9_witness : ∃ e, get_os_images missingImageResp = .error e :=
  c9_required_keys.1 missingImageResp [.obj [("description", .str "d")]]
    (.obj [("description", .str "d")]) [("description", .str "d")]
    "checksum" rfl (List.mem_singleton.mpr rfl) rfl (by decide) rfl
